import Mathlib

/-!
# Verification of `src/mcp/examples/ai-assistant-integration.py`

Shallow embedding of the example MCP client script. The script is a
single-threaded sequence of JSON-RPC requests against a remote MCP server;
we embed:

* parsed JSON values as the inductive `Json` (JSON numbers are modelled as
  `Int`; none of the verified claims depends on fractional numeric values,
  and where Python performs float division we compute in `Rat`);
* Python dictionary/list indexing, truthiness and `str()` conversion as
  explicit total Lean functions returning `Except String _` where Python
  would raise (`KeyError`, `TypeError`, `IndexError`), with the exception
  text as the `String`;
* the remote MCP server as an oracle `Oracle : String → Json → Except
  String Json` giving, for each `call_tool` invocation (tool name and
  arguments), either the parsed tool result or the raised exception's
  message — the HTTP transport, `response.raise_for_status()` and
  `json.loads` of the wire bytes are outside the script's algorithmic
  content and are absorbed into the oracle;
* each assistant-layer function as a computation in `TR`, a
  writer/exception monad recording the list of `call_tool` invocations
  made (in order, including calls whose results raised) together with the
  `Except` outcome.

The `MCPClient` request machinery itself (`__init__`, `_initialize`,
`call_method`, `call_tool`) is embedded separately and exactly, as a state
machine over `ClientState` emitting `HttpRequest` records.
-/

/-- Parsed JSON values (`response.json()` results, tool arguments, …).
JSON numbers are modelled as `Int`. -/
inductive Json where
  | null : Json
  | bool (b : Bool) : Json
  | num (n : Int) : Json
  | str (s : String) : Json
  | arr (xs : List Json) : Json
  | obj (kvs : List (String × Json)) : Json

namespace Json

/-- Key lookup in a JSON object, `none` when absent or not an object
(Python `dict.get` returning `None` is `(getKey j k).getD .null`). -/
def getKey : Json → String → Option Json
  | .obj kvs, k => kvs.lookup k
  | _, _ => none

/-- Python `'k' in result` on a parsed JSON object. -/
def hasKey (j : Json) (k : String) : Bool :=
  (j.getKey k).isSome

/-- The list of keys of a JSON object (empty for non-objects). -/
def keysOf : Json → List String
  | .obj kvs => kvs.map Prod.fst
  | _ => []

end Json

/-- Python truthiness of a parsed JSON value (`None`, `False`, `0`, `""`,
`[]`, `{}` are falsy). -/
def pyTruthy : Json → Bool
  | .null => false
  | .bool b => b
  | .num n => n != 0
  | .str s => s ≠ ""
  | .arr xs => !xs.isEmpty
  | .obj kvs => !kvs.isEmpty

/-- Python `str()` of a parsed JSON value, as used inside f-strings. The
rendering of composite values approximates Python's `repr`; no claim
depends on it. -/
def pyStr : Json → String
  | .null => "None"
  | .bool true => "True"
  | .bool false => "False"
  | .num n => toString n
  | .str s => s
  | .arr _ => "[...]"
  | .obj _ => "{...}"

/-- Python `d[k]` on a parsed JSON value: `KeyError` when the key is
absent, `TypeError` when the value is not a dict. -/
def pyIndex (j : Json) (k : String) : Except String Json :=
  match j with
  | .obj kvs =>
    match kvs.lookup k with
    | some v => Except.ok v
    | none => Except.error ("KeyError: " ++ k)
  | _ => Except.error ("TypeError: value is not subscriptable by string key " ++ k)

/-- Python `xs[i]` on a parsed JSON list (negative indices count from the
end, out of range raises `IndexError`; non-lists raise `TypeError`). -/
def pyArrGet (j : Json) (i : Int) : Except String Json :=
  match j with
  | .arr xs =>
    let i' : Int := if i < 0 then i + xs.length else i
    if h : 0 ≤ i' ∧ i'.toNat < xs.length then
      Except.ok (xs.get ⟨i'.toNat, h.2⟩)
    else
      Except.error "IndexError: list index out of range"
  | _ => Except.error "TypeError: value is not a list"

/-- Expect a JSON string (Python raising `TypeError` where a `str` is
required). -/
def asStr : Json → Except String String
  | .str s => Except.ok s
  | _ => Except.error "TypeError: expected a string"

/-- Expect a JSON number (Python raising `TypeError` where a number is
required). -/
def asInt : Json → Except String Int
  | .num n => Except.ok n
  | _ => Except.error "TypeError: expected a number"

/-- Python `int(x)` on a JSON value: numbers pass through, strings are
parsed as decimal integers (`ValueError` otherwise). -/
def pyInt (j : Json) : Except String Int :=
  match j with
  | .num n => Except.ok n
  | .str s =>
    match s.toInt? with
    | some n => Except.ok n
    | none => Except.error ("ValueError: invalid literal for int: " ++ s)
  | _ => Except.error "TypeError: int() argument must be a string or a number"

/-- Elementwise string expectation over a list of JSON values. -/
def strListLoop : List Json → Except String (List String)
  | [] => Except.ok []
  | j :: js =>
    (asStr j).bind (fun s => (strListLoop js).bind (fun rest => Except.ok (s :: rest)))

/-- Expect a JSON array of strings (the script's `result['tables']`, which
it stores and then iterates/lowercases as a list of strings; a non-string
element would make Python raise at that later use, which we surface here). -/
def asStrList : Json → Except String (List String)
  | .arr xs => strListLoop xs
  | _ => Except.error "TypeError: expected a list of strings"

/-- `str.lower()` (ASCII, as all strings matched by the script are ASCII). -/
def pyLower (s : String) : String :=
  String.mk (s.data.map Char.toLower)

/-- `sub` is a prefix of `hay` (on character lists). -/
def startsWithList : List Char → List Char → Bool
  | _, [] => true
  | [], _ :: _ => false
  | a :: hay, b :: sub => a = b && startsWithList hay sub

/-- `sub` occurs as a contiguous sublist of `hay`. -/
def hasSubList : List Char → List Char → Bool
  | [], sub => sub.isEmpty
  | a :: hay, sub => startsWithList (a :: hay) sub || hasSubList hay sub

/-- Python `sub in hay` on strings: substring containment. -/
def strContainsB (hay sub : String) : Bool :=
  hasSubList hay.data sub.data

/-! ## The traced client computation monad

Assistant-layer functions are embedded in `TR`, which pairs an
`Except String` outcome (Python exception propagation) with the list of
`call_tool` invocations made, in order. The trace records a call at the
moment it is issued, so calls whose results raise still appear. -/

/-- One `call_tool` invocation: tool name and arguments. -/
abbrev ToolCall := String × Json

/-- The behaviour of the remote MCP server as observed through
`MCPClient.call_tool`: for a tool name and arguments, the parsed tool
result, or the message of the exception the call raised. -/
abbrev Oracle := String → Json → Except String Json

/-- A traced, fallible computation: outcome plus `call_tool` trace. -/
def TR (α : Type) : Type := Except String α × List ToolCall

/-- Embed a pure value (no calls, no exception). -/
def TR.pure (a : α) : TR α := (Except.ok a, [])

/-- Sequencing: on exception the continuation does not run, but the trace
up to the exception is kept. -/
def TR.bind (x : TR α) (f : α → TR β) : TR β :=
  match x with
  | (Except.error e, t) => (Except.error e, t)
  | (Except.ok a, t) =>
    match f a with
    | (r, t') => (r, t ++ t')

instance : Monad TR where
  pure := TR.pure
  bind := TR.bind

/-- Python `raise`. -/
def TR.throw (e : String) : TR α := (Except.error e, [])

/-- Python `try: ... except: ...` — the handler sees any exception; calls
made before the exception stay in the trace. -/
def TR.attempt (x : TR α) (h : String → TR α) : TR α :=
  match x with
  | (Except.error e, t) =>
    match h e with
    | (r, t') => (r, t ++ t')
  | (Except.ok a, t) => (Except.ok a, t)

/-- Lift a pure `Except` computation (dictionary indexing and the like)
into `TR`. -/
def TR.liftE (x : Except String α) : TR α := (x, [])

/-- `MCPClient.call_tool` as seen by the assistant layer: record the
invocation and consult the oracle. -/
def callToolTR (σ : Oracle) (name : String) (args : Json) : TR Json :=
  (σ name args, [(name, args)])

/-! ## `MCPClient`: request construction and state

`__init__` (lines 24-33) strips the trailing `/` from the base URL,
creates one `requests.Session` (modelled by an abstract identity `sid`),
sets the `Authorization` header once when an `api_key` is given, sets
`request_id = 1`, and calls `_initialize`. `call_method` (lines 47-64)
builds the JSON-RPC payload, increments `request_id`, posts on
`self.session`, and interprets the parsed response. -/

/-- `base_url.rstrip('/')`. -/
def rstripSlash (s : String) : String :=
  String.mk ((s.data.reverse.dropWhile (fun c => c = '/')).reverse)

/-- Python `params or {}` (line 52): `None` and the empty dict both give
`{}`. -/
def paramsOrEmpty : Option Json → Json
  | none => Json.obj []
  | some p => if pyTruthy p then p else Json.obj []

/-- The JSON-RPC payload built by `call_method` (lines 49-54). -/
def mkPayload (method : String) (params : Option Json) (id : Nat) : Json :=
  Json.obj [("jsonrpc", Json.str "2.0"),
            ("method", Json.str method),
            ("params", paramsOrEmpty params),
            ("id", Json.num id)]

/-- The mutable state of an `MCPClient`: the stripped base URL, the
identity of the `requests.Session` created in `__init__`, its headers,
and the `request_id` counter. -/
structure ClientState where
  base_url : String
  sessionId : Nat
  headers : List (String × String)
  request_id : Nat

/-- One HTTP POST as issued by `call_method` line 57: which session
carried it, with which headers, to which URL, with which JSON body. -/
structure HttpRequest where
  sessionId : Nat
  headers : List (String × String)
  url : String
  body : Json

/-- The session headers set in `__init__` (lines 29-30). -/
def headersOf : Option String → List (String × String)
  | some key => [("Authorization", "Bearer " ++ key)]
  | none => []

/-- The client state as prepared by `__init__` lines 24-30, before the
`_initialize` call: fresh session `sid`, `request_id = 1`. -/
def mkClientState (base_url : String) (api_key : Option String) (sid : Nat) : ClientState :=
  { base_url := rstripSlash base_url
    sessionId := sid
    headers := headersOf api_key
    request_id := 1 }

/-- The request-emitting part of `call_method` (lines 49-57): build the
payload with the current `request_id`, increment the counter, post on
`self.session`. -/
def call_method_send (st : ClientState) (method : String) (params : Option Json) :
    HttpRequest × ClientState :=
  ({ sessionId := st.sessionId
     headers := st.headers
     url := st.base_url
     body := mkPayload method params st.request_id },
   { st with request_id := st.request_id + 1 })

/-- The response-interpreting part of `call_method` (lines 60-64), given
the parsed body `response.json()`: a response with an `'error'` key
raises (the `KeyError` from a malformed error object propagating instead,
as in the f-string of line 62), otherwise `result.get('result')` is
returned. -/
def call_method_recv (resp : Json) : Except String Json :=
  if resp.hasKey "error" then
    match (pyIndex resp "error").bind (fun e => pyIndex e "message") with
    | Except.ok m => Except.error ("MCP Error: " ++ pyStr m)
    | Except.error e => Except.error e
  else
    Except.ok ((resp.getKey "result").getD Json.null)

/-- The `params` dict built by `call_tool` (lines 68-71) for the
`tools/call` method. -/
def call_tool_params (tool_name : String) (arguments : Json) : Json :=
  Json.obj [("name", Json.str tool_name), ("arguments", arguments)]

/-- `result['content'][0]['text']` as accessed by `call_tool`
(lines 75 and 77). -/
def contentTextJ (result : Json) : Except String Json :=
  (pyIndex result "content").bind (fun c =>
    (pyArrGet c 0).bind (fun e0 => pyIndex e0 "text"))

/-- The result-interpreting part of `call_tool` (lines 74-77), given the
`call_method` result and the behaviour `parse` of `json.loads` on the
text: a truthy `isError` raises with the first content item's text,
otherwise the text is parsed as JSON. -/
def call_tool_recv (parse : String → Except String Json) (result : Json) :
    Except String Json :=
  if pyTruthy ((result.getKey "isError").getD Json.null) then
    match contentTextJ result with
    | Except.ok txt => Except.error ("Tool error: " ++ pyStr txt)
    | Except.error e => Except.error e
  else
    (contentTextJ result).bind (fun txt =>
      (asStr txt).bind (fun s => parse s))

/-- The `params` of the `initialize` call issued by `_initialize`
(lines 37-44). -/
def initializeParams : Json :=
  Json.obj [("protocolVersion", Json.str "2024-11-05"),
            ("capabilities", Json.obj []),
            ("clientInfo", Json.obj [("name", Json.str "ai-assistant-client"),
                                     ("version", Json.str "1.0.0")])]

/-- `MCPClient.__init__`: prepare the state and send the `initialize`
request (the first request the client ever makes). -/
def newClient (base_url : String) (api_key : Option String) (sid : Nat) :
    HttpRequest × ClientState :=
  call_method_send (mkClientState base_url api_key sid) "initialize" (some initializeParams)

/-- A sequence of `call_method` invocations on a client: the requests
emitted, in order, and the final state. -/
def runMethodCalls (st : ClientState) : List (String × Option Json) → List HttpRequest × ClientState
  | [] => ([], st)
  | (m, p) :: rest =>
    match call_method_send st m p with
    | (req, st') =>
      match runMethodCalls st' rest with
      | (reqs, stF) => (req :: reqs, stF)

/-- The `id` field of an emitted request's payload. -/
def reqId (r : HttpRequest) : Json :=
  (r.body.getKey "id").getD Json.null

/-! ## `MCPClient` convenience wrappers and the `DatabaseAssistant`

From here on, computations live in `TR` over an `Oracle` describing what
each `call_tool` invocation returns (or raises). The `initialize` call of
the constructor is a `call_method`, not a `call_tool`, so it does not
appear in tool traces; it is covered by the `ClientState` machinery
above. -/

/-- Python `parameters or []` (line 83). -/
def parametersOrEmpty : Option Json → Json
  | none => Json.arr []
  | some p => if pyTruthy p then p else Json.arr []

/-- `MCPClient.query` (lines 79-84). -/
def queryTR (σ : Oracle) (sql : String) (parameters : Option Json) : TR Json :=
  callToolTR σ "query"
    (Json.obj [("sql", Json.str sql), ("parameters", parametersOrEmpty parameters)])

/-- Expect a JSON array (Python iteration/slicing of a non-list raising
`TypeError`). -/
def asArr : Json → Except String (List Json)
  | .arr xs => Except.ok xs
  | _ => Except.error "TypeError: value is not a list"

/-- Python `.items()` on a parsed JSON object (`AttributeError` on
non-dicts). -/
def asObjItems : Json → Except String (List (String × Json))
  | .obj kvs => Except.ok kvs
  | _ => Except.error "AttributeError: value has no attribute items"

/-- Python `.keys()` on a parsed JSON object (`AttributeError` on
non-dicts). -/
def jsonKeysE : Json → Except String (List String)
  | .obj kvs => Except.ok (kvs.map Prod.fst)
  | _ => Except.error "AttributeError: value has no attribute keys"

/-- Python `==` between a parsed JSON value and a string literal (never
raises; `False` across types). -/
def jsonEqStrB : Json → String → Bool
  | .str s, t => s = t
  | _, _ => false

/-- Python `==` between a parsed JSON value and an integer (never raises;
`False` across types — Python's `True == 1` corner is not exercised by
the script's data). -/
def jsonEqNumB : Json → Int → Bool
  | .num n, m => n = m
  | _, _ => false

/-- Python `f"...{x:.2f}"` on a JSON value: numbers format, anything else
raises. With numbers modelled as `Int` the rendering appends `.00`; no
claim depends on the digits. -/
def fmtF2 : Json → Except String String
  | .num n => Except.ok (toString n ++ ".00")
  | _ => Except.error "TypeError: unsupported format string"

/-- Python `f"...{x:,}"` (thousands separators omitted in the model). -/
def fmtComma : Json → Except String String
  | .num n => Except.ok (toString n)
  | _ => Except.error "ValueError: cannot format value with comma"

/-- Python `f"...{x:,.2f}"`. -/
def fmtCommaF2 : Json → Except String String
  | .num n => Except.ok (toString n ++ ".00")
  | _ => Except.error "ValueError: cannot format value with comma"

/-- Python `f"...{q:.1f}"` on the computed null percentage (a `Rat` in
the model; display approximation). -/
def fmtRat1 (q : Rat) : String := toString q

/-- `MCPClient.get_tables` (lines 86-89). -/
def get_tablesTR (σ : Oracle) : TR (List String) := do
  let result ← callToolTR σ "list_tables" (Json.obj [])
  let tablesJ ← TR.liftE (pyIndex result "tables")
  TR.liftE (asStrList tablesJ)

/-- `MCPClient.analyze_table` (lines 91-96): `columns` is added to the
args only when truthy. -/
def analyze_tableTR (σ : Oracle) (table : String) (columns : Option Json) : TR Json :=
  callToolTR σ "analyze_table"
    (match columns with
     | some cs =>
       if pyTruthy cs then Json.obj [("table", Json.str table), ("columns", cs)]
       else Json.obj [("table", Json.str table)]
     | none => Json.obj [("table", Json.str table)])

/-- The database context built by `DatabaseAssistant._build_context`. -/
structure DbContext where
  tables : List String
  schemas : List (String × Json)

/-- The `for table in tables[:5]` loop of `_build_context` (lines
115-120): each `inspect_schema` call is wrapped in `try: ... except:
pass`, so a failing call contributes nothing and the loop continues. -/
def buildSchemas (σ : Oracle) : List String → TR (List (String × Json))
  | [] => pure []
  | t :: ts => do
    let first ← TR.attempt
      (do
        let s ← callToolTR σ "inspect_schema" (Json.obj [("table", Json.str t)])
        pure [(t, s)])
      (fun _ => pure [])
    let rest ← buildSchemas σ ts
    pure (first ++ rest)

/-- `DatabaseAssistant._build_context` (lines 106-122). -/
def build_context (σ : Oracle) : TR DbContext := do
  let tables ← get_tablesTR σ
  let schemas ← buildSchemas σ (tables.take 5)
  pure ⟨tables, schemas⟩

/-- The fixed fallback answer of `natural_language_query` (line 185). -/
def fallbackMsg : String :=
  "I couldn't understand that question. Try asking about counts, averages, or top records."

/-- The triple-quoted top-customers SQL (lines 143-151), byte for byte. -/
def sqlTopCustomers : String :=
  String.intercalate "\n"
    ["",
     "                    SELECT c.name, SUM(s.amount) as total_revenue",
     "                    FROM customers c",
     "                    JOIN sales s ON c.id = s.customer_id",
     "                    WHERE s.status = 'completed'",
     "                    GROUP BY c.id, c.name",
     "                    ORDER BY total_revenue DESC",
     "                    LIMIT 5",
     "                "]

/-- The average-order SQL (line 162). -/
def sqlAvgOrder : String :=
  "SELECT AVG(amount) as avg_amount FROM sales WHERE status = 'completed'"

/-- The triple-quoted trend SQL (lines 169-178), byte for byte. -/
def sqlTrend : String :=
  String.intercalate "\n"
    ["",
     "                SELECT ",
     "                    DATE(created_at) as date,",
     "                    COUNT(*) as orders,",
     "                    SUM(amount) as revenue",
     "                FROM sales",
     "                WHERE created_at >= date('now', '-7 days')",
     "                GROUP BY DATE(created_at)",
     "                ORDER BY date",
     "            "]

/-- The `for table in self.context['tables']` loop of the `"how many"`
branch (lines 134-138): the first table whose lowercased name occurs in
the lowercased question is counted; if none matches, control falls
through to the fallback return of line 185. -/
def howManyLoop (σ : Oracle) (ql : String) : List String → TR String
  | [] => pure fallbackMsg
  | t :: ts =>
    if strContainsB ql (pyLower t) then do
      let result ← queryTR σ ("SELECT COUNT(*) as count FROM " ++ t) none
      let countJ ← TR.liftE ((pyIndex result "results").bind (fun rs =>
        (pyArrGet rs 0).bind (fun r0 => pyIndex r0 "count")))
      pure ("There are " ++ pyStr countJ ++ " records in the " ++ t ++ " table.")
    else howManyLoop σ ql ts

/-- The `enumerate(result['results'], 1)` loop of the top-customers
branch (lines 154-155). -/
def topCustomersLines : List Json → Nat → Except String String
  | [], _ => Except.ok ""
  | row :: rest, i => do
    let nameJ ← pyIndex row "name"
    let revJ ← pyIndex row "total_revenue"
    let revS ← fmtF2 revJ
    let restS ← topCustomersLines rest (i + 1)
    Except.ok (toString i ++ ". " ++ pyStr nameJ ++ ": $" ++ revS ++ "\n" ++ restS)

/-- The `for row in result['results']` loop of the trend branch
(lines 181-182). -/
def trendLines : List Json → Except String String
  | [] => Except.ok ""
  | row :: rest => do
    let dateJ ← pyIndex row "date"
    let ordersJ ← pyIndex row "orders"
    let revJ ← pyIndex row "revenue"
    let revS ← fmtF2 revJ
    let restS ← trendLines rest
    Except.ok (pyStr dateJ ++ ": " ++ pyStr ordersJ ++ " orders, $" ++ revS ++ "\n" ++ restS)

/-- `DatabaseAssistant.natural_language_query` (lines 124-185):
case-insensitive substring matching of a handful of phrases against the
question, dispatching to hardcoded SQL; everything else returns
`fallbackMsg`. `tables` is `self.context['tables']`. -/
def natural_language_query (σ : Oracle) (tables : List String) (question : String) : TR String :=
  let ql := pyLower question
  if strContainsB ql "how many" then
    howManyLoop σ ql tables
  else if strContainsB ql "top" && strContainsB ql "by" then
    if strContainsB ql "customers" && strContainsB ql "revenue" then do
      let result ← queryTR σ sqlTopCustomers none
      let rows ← TR.liftE ((pyIndex result "results").bind asArr)
      let lines ← TR.liftE (topCustomersLines rows 1)
      pure ("Top 5 customers by revenue:\n" ++ lines)
    else pure fallbackMsg
  else if strContainsB ql "average" || strContainsB ql "avg" then
    if strContainsB ql "order" || strContainsB ql "sale" then do
      let result ← queryTR σ sqlAvgOrder none
      let avgJ ← TR.liftE ((pyIndex result "results").bind (fun rs =>
        (pyArrGet rs 0).bind (fun r0 => pyIndex r0 "avg_amount")))
      let avgS ← TR.liftE (fmtF2 avgJ)
      pure ("The average order value is $" ++ avgS)
    else pure fallbackMsg
  else if strContainsB ql "trend" || strContainsB ql "over time" then do
    let result ← queryTR σ sqlTrend none
    let rows ← TR.liftE ((pyIndex result "results").bind asArr)
    let lines ← TR.liftE (trendLines rows)
    pure ("Sales trend for the last 7 days:\n" ++ lines)
  else
    pure fallbackMsg

/-- The table-count SQL of `analyze_performance` (line 193). -/
def sqlTableCount : String :=
  "SELECT COUNT(*) as total_tables FROM sqlite_master WHERE type='table'"

/-- The largest-tables SQL (lines 197-203), byte for byte. -/
def sqlLargestTables : String :=
  String.intercalate "\n"
    ["SELECT ",
     "                              name, ",
     "                              (SELECT COUNT(*) FROM pragma_table_info(name)) as column_count",
     "                            FROM sqlite_master ",
     "                            WHERE type='table' ",
     "                            ORDER BY column_count DESC ",
     "                            LIMIT 5"]

/-- The data-overview SQL (lines 207-211), byte for byte. -/
def sqlDataOverview : String :=
  String.intercalate "\n"
    ["SELECT ",
     "                              COUNT(*) as total_records,",
     "                              MIN(created_at) as oldest_record,",
     "                              MAX(created_at) as newest_record",
     "                            FROM sales"]

/-- The `batch_query` arguments of `analyze_performance` (lines 190-215). -/
def perfBatchArgs : Json :=
  Json.obj [("queries", Json.arr
    [Json.obj [("sql", Json.str sqlTableCount), ("label", Json.str "table_count")],
     Json.obj [("sql", Json.str sqlLargestTables), ("label", Json.str "largest_tables")],
     Json.obj [("sql", Json.str sqlDataOverview), ("label", Json.str "data_overview")]])]

/-- The `result['results'][:3]` loop of the largest-tables branch
(lines 227-228). -/
def largestLines : List Json → Except String (List String)
  | [] => Except.ok []
  | t :: ts => do
    let nameJ ← pyIndex t "name"
    let ccJ ← pyIndex t "column_count"
    let rest ← largestLines ts
    Except.ok (("  - " ++ pyStr nameJ ++ ": " ++ pyStr ccJ ++ " columns") :: rest)

/-- One iteration of the `for result in batch_result['results']` loop of
`analyze_performance` (lines 219-233): `result['results']` is only read
when `result['success']` is truthy (Python `and` short-circuits), and
each recognised label appends its lines. -/
def perfItem (result : Json) : Except String (List String) := do
  let success ← pyIndex result "success"
  if pyTruthy success then do
    let rs ← pyIndex result "results"
    if pyTruthy rs then do
      let label ← pyIndex result "label"
      if jsonEqStrB label "table_count" then do
        let countJ ← (pyArrGet rs 0).bind (fun r0 => pyIndex r0 "total_tables")
        Except.ok ["• Total tables: " ++ pyStr countJ]
      else if jsonEqStrB label "largest_tables" then do
        let rsL ← asArr rs
        let ls ← largestLines (rsL.take 3)
        Except.ok ("• Largest tables by column count:" :: ls)
      else if jsonEqStrB label "data_overview" then do
        let data ← pyArrGet rs 0
        let trJ ← pyIndex data "total_records"
        let oldJ ← pyIndex data "oldest_record"
        let newJ ← pyIndex data "newest_record"
        Except.ok ["• Sales data: " ++ pyStr trJ ++ " records",
                   "  Date range: " ++ pyStr oldJ ++ " to " ++ pyStr newJ]
      else Except.ok []
    else Except.ok []
  else Except.ok []

/-- The full loop of `analyze_performance` over the batch results. -/
def perfLoop : List Json → Except String (List String)
  | [] => Except.ok []
  | r :: rest => do
    let xs ← perfItem r
    let ys ← perfLoop rest
    Except.ok (xs ++ ys)

/-- `DatabaseAssistant.analyze_performance` (lines 187-235). -/
def analyze_performance (σ : Oracle) : TR String := do
  let batch ← callToolTR σ "batch_query" perfBatchArgs
  let results ← TR.liftE ((pyIndex batch "results").bind asArr)
  let insights ← TR.liftE (perfLoop results)
  pure (String.intercalate "\n" ("Database Performance Analysis:\n" :: insights))

/-- Guarded float division as performed (or skipped) on line 246. Python
raises `ZeroDivisionError` on division by zero; the embedding makes the
raise explicit so that "never divides by zero" is a statement about the
code path, not about Lean's total division. -/
def checkedDiv (a b : Int) : Except String Rat :=
  if b = 0 then Except.error "ZeroDivisionError: division by zero"
  else Except.ok ((a : Rat) / (b : Rat))

/-- The conditional expression of line 246:
`(stats['null_count'] / analysis['total_rows'] * 100) if
analysis['total_rows'] > 0 else 0`. `stats['null_count']` is only read —
and the division only performed — when `total_rows > 0`. -/
def null_percentage (st : Json) (total_rows : Int) : Except String Rat :=
  if total_rows > 0 then do
    let ncJ ← pyIndex st "null_count"
    let nc ← asInt ncJ
    let q ← checkedDiv nc total_rows
    Except.ok (q * 100)
  else Except.ok 0

/-- One iteration of the `for column, stats in
analysis['statistics'].items()` loop of `suggest_optimizations` (lines
245-255), in Python's evaluation order. -/
def statLine (analysis : Json) (column : String) (st : Json) : Except String (List String) := do
  let trJ ← pyIndex analysis "total_rows"
  let tr ← asInt trJ
  let np ← null_percentage st tr
  let l1 : List String :=
    if 50 < np then
      ["• Column '" ++ column ++ "' has " ++ fmtRat1 np ++
       "% NULL values - consider removing or making optional"]
    else []
  let ucJ ← pyIndex st "unique_count"
  let l2 ← (if jsonEqNumB ucJ tr then do
      let dtJ ← pyIndex st "data_type"
      Except.ok (if jsonEqStrB dtJ "string" || jsonEqStrB dtJ "integer" then
        ["• Column '" ++ column ++ "' has all unique values - good candidate for primary key or index"]
      else [])
    else Except.ok [])
  let uc ← asInt ucJ
  let l3 : List String :=
    if uc < 10 && tr > 100 then
      ["• Column '" ++ column ++ "' has low cardinality (" ++ pyStr ucJ ++
       " unique values) - consider creating an index"]
    else []
  Except.ok (l1 ++ l2 ++ l3)

/-- The whole statistics loop of `suggest_optimizations`. -/
def statLoop (analysis : Json) : List (String × Json) → Except String (List String)
  | [] => Except.ok []
  | (c, st) :: rest => do
    let xs ← statLine analysis c st
    let ys ← statLoop analysis rest
    Except.ok (xs ++ ys)

/-- `DatabaseAssistant.suggest_optimizations` after the `analyze_table`
call returned `analysis` (lines 242-257). -/
def suggest_core (table : String) (analysis : Json) : Except String String := do
  let statsJ ← pyIndex analysis "statistics"
  let items ← asObjItems statsJ
  let ls ← statLoop analysis items
  Except.ok (String.intercalate "\n"
    (("Optimization suggestions for '" ++ table ++ "' table:\n") :: ls))

/-- `DatabaseAssistant.suggest_optimizations` (lines 237-257). -/
def suggest_optimizationsTR (σ : Oracle) (table : String) : TR String := do
  let analysis ← analyze_tableTR σ table none
  TR.liftE (suggest_core table analysis)

/-- The questions of `demo_conversation` (lines 269-274). -/
def demoQuestions : List String :=
  ["How many customers do we have?",
   "What's the average order value?",
   "Show me the sales trend over time",
   "Who are the top customers by revenue?"]

/-- The `for question in questions` loop of `demo_conversation`
(lines 276-279); the printed answers are discarded. -/
def askLoop (σ : Oracle) (ctx : DbContext) : List String → TR Unit
  | [] => pure ()
  | q :: qs => do
    let _ ← natural_language_query σ ctx.tables q
    askLoop σ ctx qs

/-- `demo_conversation` (lines 260-289) at `call_tool` granularity: the
`MCPClient()` construction issues only the `initialize` call_method (no
tool call), then the assistant is built and exercised. -/
def demo_conversation (σ : Oracle) : TR Unit := do
  let ctx ← build_context σ
  askLoop σ ctx demoQuestions
  let _ ← analyze_performance σ
  let _ ← suggest_optimizationsTR σ "sales"
  pure ()

/-- The monthly-summary SQL of `advanced_ai_integration` (lines 305-312),
byte for byte. -/
def sqlMonthlySummary : String :=
  String.intercalate "\n"
    ["SELECT ",
     "                          COUNT(DISTINCT customer_id) as customers,",
     "                          COUNT(*) as orders,",
     "                          SUM(amount) as revenue,",
     "                          AVG(amount) as avg_order",
     "                        FROM sales ",
     "                        WHERE status = 'completed'",
     "                        AND created_at >= date('now', '-30 days')"]

/-- The top-categories SQL (lines 316-326), byte for byte. -/
def sqlTopCategories : String :=
  String.intercalate "\n"
    ["SELECT ",
     "                          p.category,",
     "                          COUNT(s.id) as units_sold,",
     "                          SUM(s.amount) as revenue",
     "                        FROM sales s",
     "                        JOIN products p ON s.product_id = p.id",
     "                        WHERE s.status = 'completed'",
     "                        AND s.created_at >= date('now', '-30 days')",
     "                        GROUP BY p.category",
     "                        ORDER BY revenue DESC",
     "                        LIMIT 3"]

/-- The best-day SQL (lines 330-337), byte for byte. -/
def sqlBestDay : String :=
  String.intercalate "\n"
    ["SELECT ",
     "                          strftime('%w', created_at) as day_of_week,",
     "                          COUNT(*) as order_count",
     "                        FROM sales",
     "                        WHERE created_at >= date('now', '-30 days')",
     "                        GROUP BY day_of_week",
     "                        ORDER BY order_count DESC",
     "                        LIMIT 1"]

/-- The `batch_query` arguments of `advanced_ai_integration`
(lines 302-341). -/
def advancedBatchArgs : Json :=
  Json.obj [("queries", Json.arr
    [Json.obj [("sql", Json.str sqlMonthlySummary), ("label", Json.str "monthly_summary")],
     Json.obj [("sql", Json.str sqlTopCategories), ("label", Json.str "top_categories")],
     Json.obj [("sql", Json.str sqlBestDay), ("label", Json.str "best_day")]])]

/-- The ML-sample SQL of the `stream_query` call (lines 374-382), byte
for byte. -/
def sqlStream : String :=
  String.intercalate "\n"
    ["SELECT ",
     "                    amount,",
     "                    quantity,",
     "                    discount,",
     "                    strftime('%H', created_at) as hour,",
     "                    strftime('%w', created_at) as day_of_week,",
     "                    CASE WHEN status = 'completed' THEN 1 ELSE 0 END as completed",
     "                  FROM sales",
     "                  WHERE created_at >= date('now', '-90 days')"]

/-- The `stream_query` arguments (lines 373-384). -/
def streamArgs : Json :=
  Json.obj [("sql", Json.str sqlStream), ("batch_size", Json.num 100)]

/-- The weekday names of line 364. -/
def daysList : List String :=
  ["Sunday", "Monday", "Tuesday", "Wednesday", "Thursday", "Friday", "Saturday"]

/-- Python `xs[i]` on a list of strings (negative indices count from the
end): `days[day_num]` on line 367. -/
def pyStrListGet (xs : List String) (i : Int) : Except String String :=
  let i' : Int := if i < 0 then i + xs.length else i
  if h : 0 ≤ i' ∧ i'.toNat < xs.length then Except.ok (xs.get ⟨i'.toNat, h.2⟩)
  else Except.error "IndexError: list index out of range"

/-- Rendering of `list(sample.keys())` in the f-string of line 393
(display approximation of Python's list repr). -/
def fmtStrList (ks : List String) : String :=
  "[" ++ String.intercalate ", " (ks.map (fun k => "'" ++ k ++ "'")) ++ "]"

/-- The `enumerate(result['results'], 1)` loop of the top-categories
branch (lines 359-360). -/
def topCategoriesLines : List Json → Nat → Except String (List String)
  | [], _ => Except.ok []
  | cat :: rest, i => do
    let cJ ← pyIndex cat "category"
    let rJ ← pyIndex cat "revenue"
    let rS ← fmtCommaF2 rJ
    let uJ ← pyIndex cat "units_sold"
    let restL ← topCategoriesLines rest (i + 1)
    Except.ok ((toString i ++ ". " ++ pyStr cJ ++ ": $" ++ rS ++ " (" ++ pyStr uJ ++ " units)") :: restL)

/-- One iteration of the report loop of `advanced_ai_integration`
(lines 347-367), in Python's evaluation order (the printed lines are
collected, then discarded by the caller). -/
def reportItem (result : Json) : Except String (List String) := do
  let success ← pyIndex result "success"
  if pyTruthy success then do
    let rs ← pyIndex result "results"
    if pyTruthy rs then do
      let label ← pyIndex result "label"
      if jsonEqStrB label "monthly_summary" then do
        let data ← pyArrGet rs 0
        let cJ ← pyIndex data "customers"
        let cS ← fmtComma cJ
        let oJ ← pyIndex data "orders"
        let oS ← fmtComma oJ
        let rJ ← pyIndex data "revenue"
        let rS ← fmtCommaF2 rJ
        let aJ ← pyIndex data "avg_order"
        let aS ← fmtF2 aJ
        Except.ok ["Key Metrics:",
                   "• Active Customers: " ++ cS,
                   "• Total Orders: " ++ oS,
                   "• Total Revenue: $" ++ rS,
                   "• Average Order Value: $" ++ aS]
      else if jsonEqStrB label "top_categories" then do
        let rsL ← asArr rs
        let ls ← topCategoriesLines rsL 1
        Except.ok ("Top Performing Categories:" :: ls)
      else if jsonEqStrB label "best_day" then do
        let dwJ ← (pyArrGet rs 0).bind (fun r0 => pyIndex r0 "day_of_week")
        let day_num ← pyInt dwJ
        let countJ ← (pyArrGet rs 0).bind (fun r0 => pyIndex r0 "order_count")
        let day ← pyStrListGet daysList day_num
        Except.ok ["Best Sales Day: " ++ day ++ " (avg " ++ pyStr countJ ++ " orders)"]
      else Except.ok []
    else Except.ok []
  else Except.ok []

/-- The full report loop of `advanced_ai_integration`. -/
def reportLoop : List Json → Except String (List String)
  | [] => Except.ok []
  | r :: rest => do
    let xs ← reportItem r
    let ys ← reportLoop rest
    Except.ok (xs ++ ys)

/-- The stream-result printing of lines 386-394: the three counters are
read unconditionally; the sample is inspected only when
`stream_result['batches']` is truthy. -/
def streamReport (stream_result : Json) : Except String (List String) := do
  let trJ ← pyIndex stream_result "total_rows"
  let bsJ ← pyIndex stream_result "batch_size"
  let bcJ ← pyIndex stream_result "batch_count"
  let header : List String :=
    ["• Total training samples: " ++ pyStr trJ,
     "• Batch size: " ++ pyStr bsJ,
     "• Number of batches: " ++ pyStr bcJ]
  let batches ← pyIndex stream_result "batches"
  if pyTruthy batches then do
    let b0 ← pyArrGet batches 0
    let sample ← pyArrGet b0 0
    let ks ← jsonKeysE sample
    Except.ok (header ++ ["  Features: " ++ fmtStrList ks, "  Sample: " ++ pyStr sample])
  else Except.ok header

/-- `advanced_ai_integration` (lines 292-394) at `call_tool`
granularity: a second `MCPClient()` (method-level `initialize` only),
the report `batch_query`, the report printing, the `stream_query` and
its printing. -/
def advanced_ai_integration (σ : Oracle) : TR Unit := do
  let report_data ← callToolTR σ "batch_query" advancedBatchArgs
  let results ← TR.liftE ((pyIndex report_data "results").bind asArr)
  let _ ← TR.liftE (reportLoop results)
  let stream_result ← callToolTR σ "stream_query" streamArgs
  let _ ← TR.liftE (streamReport stream_result)
  pure ()

/-- The `__main__` block (lines 397-410): run the basic demo, then the
advanced integration; any exception is caught at the top, printed, and
the run ends. -/
def main_run (σ : Oracle) : TR Unit :=
  TR.attempt
    (do
      demo_conversation σ
      advanced_ai_integration σ)
    (fun _ => pure ())

/-! ## General lemmas -/

theorem startsWithList_nil (l : List Char) : startsWithList l [] = true := by
  cases l <;> rfl

theorem startsWithList_append (sub rest : List Char) :
    startsWithList (sub ++ rest) sub = true := by
  induction sub with
  | nil => exact startsWithList_nil rest
  | cons c cs ih => simp [startsWithList, ih]

theorem hasSubList_append (p sub : List Char) :
    hasSubList (p ++ sub) sub = true := by
  induction p with
  | nil =>
    cases sub with
    | nil => rfl
    | cons c cs =>
      have h := startsWithList_append (c :: cs) []
      rw [List.append_nil] at h
      simp [hasSubList, h]
  | cons a p' ih =>
    simp [hasSubList, ih]

/-- A string contains any of its own right-hand extensions' tails: the
concatenation `p ++ m` contains `m`. -/
theorem strContainsB_append (p m : String) : strContainsB (p ++ m) m = true := by
  unfold strContainsB
  rw [String.data_append]
  exact hasSubList_append p.data m.data

/-- C3: every request payload built by `call_method` is the JSON-RPC 2.0
envelope with exactly the four keys `jsonrpc` (always the string "2.0"),
`method`, `params` and `id`, and a caller that passes no params gets the
empty dictionary sent as `params`. -/
theorem call_method_payload_envelope :
    ∀ (st : ClientState) (m : String) (p : Option Json),
      (call_method_send st m p).1.body = mkPayload m p st.request_id ∧
      Json.keysOf (mkPayload m p st.request_id) = ["jsonrpc", "method", "params", "id"] ∧
      (mkPayload m p st.request_id).getKey "jsonrpc" = some (Json.str "2.0") ∧
      (mkPayload m p st.request_id).getKey "method" = some (Json.str m) ∧
      (mkPayload m p st.request_id).getKey "id" = some (Json.num st.request_id) ∧
      (mkPayload m none st.request_id).getKey "params" = some (Json.obj []) := by
  intro st m p
  exact ⟨rfl, rfl, rfl, rfl, rfl, rfl⟩

/-- The `id` of the request emitted by `call_method` is the `request_id`
the client held when it was called. -/
theorem reqId_send (st : ClientState) (m : String) (p : Option Json) :
    reqId (call_method_send st m p).1 = Json.num st.request_id := rfl

theorem runMethodCalls_ids (calls : List (String × Option Json)) :
    ∀ st : ClientState,
      (runMethodCalls st calls).1.map reqId =
        (List.range' st.request_id calls.length).map (fun n : Nat => Json.num (Int.ofNat n)) := by
  induction calls with
  | nil => intro st; rfl
  | cons c rest ih =>
    intro st
    obtain ⟨m, p⟩ := c
    simp only [runMethodCalls, List.length_cons, List.range'_succ, List.map_cons]
    rw [List.cons.injEq]
    exact ⟨rfl, ih (call_method_send st m p).2⟩

/-- C8: the request ids of a client are strictly increasing and
consecutive: `request_id` starts at 1, the `initialize` request of the
constructor carries id 1, the requests of any subsequent sequence of
`call_method` invocations carry ids 2, 3, …, and no two requests of the
same client share an id. -/
theorem client_request_ids :
    ∀ (url : String) (key : Option String) (sid : Nat) (calls : List (String × Option Json)),
      (mkClientState url key sid).request_id = 1 ∧
      reqId (newClient url key sid).1 = Json.num 1 ∧
      ((newClient url key sid).1 :: (runMethodCalls (newClient url key sid).2 calls).1).map reqId =
        (List.range' 1 (calls.length + 1)).map (fun n : Nat => Json.num (Int.ofNat n)) ∧
      (((newClient url key sid).1 :: (runMethodCalls (newClient url key sid).2 calls).1).map reqId).Nodup := by
  intro url key sid calls
  have hmap : ((newClient url key sid).1 :: (runMethodCalls (newClient url key sid).2 calls).1).map reqId =
      (List.range' 1 (calls.length + 1)).map (fun n : Nat => Json.num (Int.ofNat n)) := by
    rw [List.range'_succ, List.map_cons, List.map_cons, List.cons.injEq]
    exact ⟨rfl, runMethodCalls_ids calls (newClient url key sid).2⟩
  refine ⟨rfl, rfl, hmap, ?_⟩
  rw [hmap]
  refine List.Nodup.map ?_ (List.nodup_range' 1 (calls.length + 1))
  intro a b h
  exact Int.ofNat.inj (Json.num.inj h)

theorem runMethodCalls_session (calls : List (String × Option Json)) :
    ∀ st : ClientState,
      (∀ r ∈ (runMethodCalls st calls).1, r.sessionId = st.sessionId ∧ r.headers = st.headers) ∧
      (runMethodCalls st calls).2.sessionId = st.sessionId ∧
      (runMethodCalls st calls).2.headers = st.headers := by
  induction calls with
  | nil =>
    intro st
    exact ⟨fun r hr => absurd hr (List.not_mem_nil r), rfl, rfl⟩
  | cons c rest ih =>
    intro st
    obtain ⟨m, p⟩ := c
    simp only [runMethodCalls]
    have ihs := ih (call_method_send st m p).2
    refine ⟨?_, ihs.2.1, ihs.2.2⟩
    intro r hr
    rcases List.mem_cons.mp hr with h | h
    · subst h; exact ⟨rfl, rfl⟩
    · exact ihs.1 r h

/-- C7: all HTTP requests of a client go through the one session created
in `__init__` (with the bearer header set once from the api key), and no
operation replaces that session: the `initialize` request and every
subsequent `call_method` request carry the same session identity and
headers, and the final state still holds them. -/
theorem client_single_session :
    ∀ (url : String) (key : Option String) (sid : Nat) (calls : List (String × Option Json)),
      (newClient url key sid).1.sessionId = sid ∧
      (newClient url key sid).1.headers = headersOf key ∧
      (newClient url key sid).2.sessionId = sid ∧
      (newClient url key sid).2.headers = headersOf key ∧
      (∀ r ∈ (runMethodCalls (newClient url key sid).2 calls).1,
        r.sessionId = sid ∧ r.headers = headersOf key) ∧
      (runMethodCalls (newClient url key sid).2 calls).2.sessionId = sid ∧
      (runMethodCalls (newClient url key sid).2 calls).2.headers = headersOf key := by
  intro url key sid calls
  have h := runMethodCalls_session calls (newClient url key sid).2
  exact ⟨rfl, rfl, rfl, rfl, h.1, h.2.1, h.2.2⟩

/-- C7 witness: a concrete client with an api key, one `tools/call`
request after construction: that request used session 7 and the bearer
header set in the constructor. -/
theorem client_single_session_witness :
    (call_method_send (newClient "http://localhost:3000" (some "k") 7).2 "tools/call" none).1 ∈
      (runMethodCalls (newClient "http://localhost:3000" (some "k") 7).2 [("tools/call", none)]).1 ∧
    (call_method_send (newClient "http://localhost:3000" (some "k") 7).2 "tools/call" none).1.sessionId = 7 ∧
    (call_method_send (newClient "http://localhost:3000" (some "k") 7).2 "tools/call" none).1.headers = headersOf (some "k") := by
  have hm : (call_method_send (newClient "http://localhost:3000" (some "k") 7).2 "tools/call" none).1 ∈
      (runMethodCalls (newClient "http://localhost:3000" (some "k") 7).2 [("tools/call", none)]).1 :=
    List.mem_singleton.mpr rfl
  have h := (client_single_session "http://localhost:3000" (some "k") 7 [("tools/call", none)]).2.2.2.2.1 _ hm
  exact ⟨hm, h.1, h.2⟩

/-- C1: for every `call_method` response body, an `'error'` key (with the
JSON-RPC error object carrying a `message` string, as the indexing
expression of line 62 presupposes) makes the method raise with a message
that includes the server-provided error message, and the absence of an
`'error'` key makes it return `result.get('result')` without raising. -/
theorem call_method_recv_spec :
    (∀ (resp : Json) (m : String),
      resp.hasKey "error" = true →
      (pyIndex resp "error").bind (fun e => pyIndex e "message") = Except.ok (Json.str m) →
      ∃ emsg, call_method_recv resp = Except.error emsg ∧ strContainsB emsg m = true) ∧
    (∀ resp : Json,
      resp.hasKey "error" = false →
      call_method_recv resp = Except.ok ((resp.getKey "result").getD Json.null)) := by
  constructor
  · intro resp m h1 h2
    refine ⟨"MCP Error: " ++ m, ?_, strContainsB_append "MCP Error: " m⟩
    unfold call_method_recv
    rw [h1, h2]
    rfl
  · intro resp h
    unfold call_method_recv
    rw [h]
    rfl

/-- C1 witness: a concrete error response and a concrete success
response. -/
theorem call_method_recv_spec_witness :
    ((Json.obj [("error", Json.obj [("message", Json.str "no such table")])]).hasKey "error" = true ∧
     (pyIndex (Json.obj [("error", Json.obj [("message", Json.str "no such table")])]) "error").bind
       (fun e => pyIndex e "message") = Except.ok (Json.str "no such table") ∧
     ∃ emsg, call_method_recv (Json.obj [("error", Json.obj [("message", Json.str "no such table")])]) =
       Except.error emsg ∧ strContainsB emsg "no such table" = true) ∧
    ((Json.obj [("result", Json.num 3)]).hasKey "error" = false ∧
     call_method_recv (Json.obj [("result", Json.num 3)]) =
       Except.ok (((Json.obj [("result", Json.num 3)]).getKey "result").getD Json.null)) := by
  refine ⟨⟨rfl, rfl, ?_⟩, ⟨rfl, ?_⟩⟩
  · exact call_method_recv_spec.1 (Json.obj [("error", Json.obj [("message", Json.str "no such table")])])
      "no such table" rfl rfl
  · exact call_method_recv_spec.2 (Json.obj [("result", Json.num 3)]) rfl

/-- `MCPClient.call_tool` lines 68-71: the request it hands to
`call_method`. -/
def call_tool_send (st : ClientState) (tool_name : String) (arguments : Json) :
    HttpRequest × ClientState :=
  call_method_send st "tools/call" (some (call_tool_params tool_name arguments))

/-- C4: every `call_tool` invocation sends the JSON-RPC method
`tools/call` whose params carry exactly the keys `name` (the tool name)
and `arguments`; given the tool result, a truthy `isError` makes it
raise with the first content item's text in the message, and a falsy one
makes it return the JSON-parse of that text (`parse` being `json.loads`,
and the content shaped as `call_tool` reads it on lines 75 and 77). -/
theorem call_tool_spec :
    (∀ (st : ClientState) (n : String) (a : Json),
      ((call_tool_send st n a).1.body).getKey "method" = some (Json.str "tools/call") ∧
      ((call_tool_send st n a).1.body).getKey "params" = some (call_tool_params n a) ∧
      Json.keysOf (call_tool_params n a) = ["name", "arguments"] ∧
      (call_tool_params n a).getKey "name" = some (Json.str n) ∧
      (call_tool_params n a).getKey "arguments" = some a) ∧
    (∀ (parse : String → Except String Json) (result jt : Json),
      pyTruthy ((result.getKey "isError").getD Json.null) = true →
      contentTextJ result = Except.ok jt →
      ∃ e, call_tool_recv parse result = Except.error e ∧ strContainsB e (pyStr jt) = true) ∧
    (∀ (parse : String → Except String Json) (result : Json) (s : String) (v : Json),
      pyTruthy ((result.getKey "isError").getD Json.null) = false →
      contentTextJ result = Except.ok (Json.str s) →
      parse s = Except.ok v →
      call_tool_recv parse result = Except.ok v) := by
  refine ⟨fun st n a => ⟨rfl, rfl, rfl, rfl, rfl⟩, ?_, ?_⟩
  · intro parse result jt h1 h2
    refine ⟨"Tool error: " ++ pyStr jt, ?_, strContainsB_append "Tool error: " (pyStr jt)⟩
    unfold call_tool_recv
    rw [h1, h2]
    rfl
  · intro parse result s v h1 h2 h3
    unfold call_tool_recv
    rw [h1, h2]
    exact h3

/-- C4 witness: a concrete error result and a concrete success result,
with `json.loads` behaviour fixed on the one string it is asked to
parse. -/
theorem call_tool_spec_witness :
    (pyTruthy (((Json.obj [("isError", Json.bool true),
        ("content", Json.arr [Json.obj [("text", Json.str "boom")]])]).getKey "isError").getD Json.null) = true ∧
     contentTextJ (Json.obj [("isError", Json.bool true),
        ("content", Json.arr [Json.obj [("text", Json.str "boom")]])]) = Except.ok (Json.str "boom") ∧
     ∃ e, call_tool_recv (fun _ => Except.ok (Json.num 5))
        (Json.obj [("isError", Json.bool true),
          ("content", Json.arr [Json.obj [("text", Json.str "boom")]])]) = Except.error e ∧
        strContainsB e (pyStr (Json.str "boom")) = true) ∧
    (pyTruthy (((Json.obj [("content", Json.arr [Json.obj [("text", Json.str "5")]])]).getKey "isError").getD Json.null) = false ∧
     contentTextJ (Json.obj [("content", Json.arr [Json.obj [("text", Json.str "5")]])]) = Except.ok (Json.str "5") ∧
     (fun _ : String => (Except.ok (Json.num 5) : Except String Json)) "5" = Except.ok (Json.num 5) ∧
     call_tool_recv (fun _ => Except.ok (Json.num 5))
       (Json.obj [("content", Json.arr [Json.obj [("text", Json.str "5")]])]) = Except.ok (Json.num 5)) := by
  refine ⟨⟨rfl, rfl, ?_⟩, ⟨rfl, rfl, rfl, ?_⟩⟩
  · exact call_tool_spec.2.1 (fun _ => Except.ok (Json.num 5))
      (Json.obj [("isError", Json.bool true),
        ("content", Json.arr [Json.obj [("text", Json.str "boom")]])]) (Json.str "boom") rfl rfl
  · exact call_tool_spec.2.2 (fun _ => Except.ok (Json.num 5))
      (Json.obj [("content", Json.arr [Json.obj [("text", Json.str "5")]])]) "5" (Json.num 5) rfl rfl rfl

/-- Whether a computation raised `ZeroDivisionError` (the only way the
script could divide by zero is line 246's division). -/
def raisesZeroDiv {α : Type} : Except String α → Bool
  | Except.error e => e == "ZeroDivisionError: division by zero"
  | Except.ok _ => false

theorem raisesZeroDiv_eq_false {α : Type} (x : Except String α)
    (h : x ≠ Except.error "ZeroDivisionError: division by zero") :
    raisesZeroDiv x = false := by
  cases x with
  | ok a => rfl
  | error e =>
    simp only [raisesZeroDiv]
    exact beq_eq_false_iff_ne.mpr (fun he => h (he ▸ rfl))

theorem except_bind_ne {α β : Type} {x : Except String α} {f : α → Except String β} {msg : String}
    (hx : x ≠ Except.error msg) (hf : ∀ a, f a ≠ Except.error msg) :
    (x >>= f) ≠ Except.error msg := by
  intro h
  cases x with
  | error e =>
    have he : e = msg := Except.error.inj h
    exact hx (by rw [he])
  | ok a => exact hf a h

theorem pyIndex_ne_err (j : Json) {k msg : String}
    (h1 : ("KeyError: " ++ k) ≠ msg)
    (h2 : ("TypeError: value is not subscriptable by string key " ++ k) ≠ msg) :
    pyIndex j k ≠ Except.error msg := by
  intro h
  cases j with
  | obj kvs =>
    rw [pyIndex] at h
    cases hl : kvs.lookup k with
    | some v => rw [hl] at h; cases h
    | none => rw [hl] at h; exact h1 (Except.error.inj h)
  | null => exact h2 (Except.error.inj h)
  | bool b => exact h2 (Except.error.inj h)
  | num n => exact h2 (Except.error.inj h)
  | str s => exact h2 (Except.error.inj h)
  | arr xs => exact h2 (Except.error.inj h)

theorem asInt_ne_err (j : Json) {msg : String}
    (h : "TypeError: expected a number" ≠ msg) :
    asInt j ≠ Except.error msg := by
  intro hh
  cases j with
  | num n => cases hh
  | null => exact h (Except.error.inj hh)
  | bool b => exact h (Except.error.inj hh)
  | str s => exact h (Except.error.inj hh)
  | arr xs => exact h (Except.error.inj hh)
  | obj kvs => exact h (Except.error.inj hh)

theorem null_percentage_ne (st : Json) (tr : Int) :
    null_percentage st tr ≠ Except.error "ZeroDivisionError: division by zero" := by
  unfold null_percentage
  by_cases htr : tr > 0
  · rw [if_pos htr]
    apply except_bind_ne
    · exact pyIndex_ne_err st (by decide) (by decide)
    intro ncJ
    apply except_bind_ne
    · exact asInt_ne_err ncJ (by decide)
    intro nc
    apply except_bind_ne
    · unfold checkedDiv
      rw [if_neg (by omega : ¬ tr = 0)]
      simp
    intro q
    simp
  · rw [if_neg htr]
    simp

theorem statLine_ne (analysis : Json) (c : String) (st : Json) :
    statLine analysis c st ≠ Except.error "ZeroDivisionError: division by zero" := by
  unfold statLine
  apply except_bind_ne
  · exact pyIndex_ne_err analysis (by decide) (by decide)
  intro trJ
  apply except_bind_ne
  · exact asInt_ne_err trJ (by decide)
  intro tr
  apply except_bind_ne
  · exact null_percentage_ne st tr
  intro np
  apply except_bind_ne
  · exact pyIndex_ne_err st (by decide) (by decide)
  intro ucJ
  apply except_bind_ne
  · split
    · apply except_bind_ne
      · exact pyIndex_ne_err st (by decide) (by decide)
      intro dtJ
      simp
    · simp
  intro l2
  apply except_bind_ne
  · exact asInt_ne_err ucJ (by decide)
  intro uc
  simp

theorem statLoop_ne (analysis : Json) (items : List (String × Json)) :
    statLoop analysis items ≠ Except.error "ZeroDivisionError: division by zero" := by
  induction items with
  | nil => simp [statLoop]
  | cons p rest ih =>
    obtain ⟨c, st⟩ := p
    unfold statLoop
    apply except_bind_ne
    · exact statLine_ne analysis c st
    intro xs
    apply except_bind_ne
    · exact ih
    intro ys
    simp

theorem asObjItems_ne (j : Json) {msg : String}
    (h : "AttributeError: value has no attribute items" ≠ msg) :
    asObjItems j ≠ Except.error msg := by
  intro hh
  cases j with
  | obj kvs => cases hh
  | null => exact h (Except.error.inj hh)
  | bool b => exact h (Except.error.inj hh)
  | num n => exact h (Except.error.inj hh)
  | str s => exact h (Except.error.inj hh)
  | arr xs => exact h (Except.error.inj hh)

theorem suggest_core_ne (table : String) (analysis : Json) :
    suggest_core table analysis ≠ Except.error "ZeroDivisionError: division by zero" := by
  unfold suggest_core
  apply except_bind_ne
  · exact pyIndex_ne_err analysis (by decide) (by decide)
  intro statsJ
  apply except_bind_ne
  · exact asObjItems_ne statsJ (by decide)
  intro items
  apply except_bind_ne
  · exact statLoop_ne analysis items
  intro ls
  simp

/-- C9: `suggest_optimizations` never divides by zero: the guarded
conditional of line 246 returns 0 without reading `stats['null_count']`
or performing the division when `analysis['total_rows']` is 0 (or
negative), and no evaluation of the per-column computation or of the
whole suggestion body raises `ZeroDivisionError`. -/
theorem suggest_no_zero_division :
    (∀ st : Json, null_percentage st 0 = Except.ok 0) ∧
    (∀ (st : Json) (tr : Int), raisesZeroDiv (null_percentage st tr) = false) ∧
    (∀ (table : String) (analysis : Json), raisesZeroDiv (suggest_core table analysis) = false) := by
  refine ⟨fun st => rfl, fun st tr => ?_, fun table analysis => ?_⟩
  · exact raisesZeroDiv_eq_false _ (null_percentage_ne st tr)
  · exact raisesZeroDiv_eq_false _ (suggest_core_ne table analysis)

/-! ## Reduction lemmas for the traced monad -/

@[simp] theorem TR.bind_def {α β : Type} (x : TR α) (f : α → TR β) :
    (x >>= f) = TR.bind x f := rfl

@[simp] theorem TR.bind_mk_ok {α β : Type} (a : α) (t : List ToolCall) (f : α → TR β) :
    TR.bind (Except.ok a, t) f = ((f a).1, t ++ (f a).2) := rfl

@[simp] theorem TR.bind_mk_err {α β : Type} (e : String) (t : List ToolCall) (f : α → TR β) :
    TR.bind (Except.error e, t) f = (Except.error e, t) := rfl

@[simp] theorem TR.pure_eq {α : Type} (a : α) :
    (Pure.pure a : TR α) = (Except.ok a, []) := rfl

@[simp] theorem TR.liftE_ok {α : Type} (a : α) :
    TR.liftE (Except.ok a : Except String α) = ((Except.ok a, []) : TR α) := rfl

@[simp] theorem TR.liftE_err {α : Type} (e : String) :
    TR.liftE (Except.error e : Except String α) = ((Except.error e, []) : TR α) := rfl

@[simp] theorem TR.attempt_mk_ok {α : Type} (a : α) (t : List ToolCall) (h : String → TR α) :
    TR.attempt ((Except.ok a, t) : TR α) h = (Except.ok a, t) := rfl

@[simp] theorem TR.attempt_mk_err {α : Type} (e : String) (t : List ToolCall) (h : String → TR α) :
    TR.attempt ((Except.error e, t) : TR α) h = ((h e).1, t ++ (h e).2) := rfl

/-- The `"how many"` branch reaches the final fallback return when no
table name occurs in the lowercased question. -/
theorem howManyLoop_fallback (σ : Oracle) (ql : String) (tables : List String)
    (h : tables.all (fun t => !(strContainsB ql (pyLower t))) = true) :
    howManyLoop σ ql tables = (Except.ok fallbackMsg, []) := by
  induction tables with
  | nil => rfl
  | cons t ts ih =>
    rw [List.all_cons, Bool.and_eq_true] at h
    have h1 : strContainsB ql (pyLower t) = false := by
      simpa using h.1
    simp [howManyLoop, h1, ih h.2]

/-- C5: `natural_language_query` lowercases the question and matches the
fixed phrase patterns `how many`; `top` with `by`; `average` or `avg`;
`trend` or `over time`; any question matching none of them — or matching
a branch whose inner condition then fails (no known table named for
`how many`, not customers-and-revenue for `top`/`by`, not order-or-sale
for `average`) — gets exactly the fixed fallback answer, with no tool
call made. -/
theorem nlq_fallback :
    ∀ (σ : Oracle) (tables : List String) (question : String),
      ((strContainsB (pyLower question) "how many" = false ∧
        (strContainsB (pyLower question) "top" && strContainsB (pyLower question) "by") = false ∧
        (strContainsB (pyLower question) "average" || strContainsB (pyLower question) "avg") = false ∧
        (strContainsB (pyLower question) "trend" || strContainsB (pyLower question) "over time") = false) →
        natural_language_query σ tables question = (Except.ok fallbackMsg, [])) ∧
      ((strContainsB (pyLower question) "how many" = true ∧
        tables.all (fun t => !(strContainsB (pyLower question) (pyLower t))) = true) →
        natural_language_query σ tables question = (Except.ok fallbackMsg, [])) ∧
      ((strContainsB (pyLower question) "how many" = false ∧
        (strContainsB (pyLower question) "top" && strContainsB (pyLower question) "by") = true ∧
        (strContainsB (pyLower question) "customers" && strContainsB (pyLower question) "revenue") = false) →
        natural_language_query σ tables question = (Except.ok fallbackMsg, [])) ∧
      ((strContainsB (pyLower question) "how many" = false ∧
        (strContainsB (pyLower question) "top" && strContainsB (pyLower question) "by") = false ∧
        (strContainsB (pyLower question) "average" || strContainsB (pyLower question) "avg") = true ∧
        (strContainsB (pyLower question) "order" || strContainsB (pyLower question) "sale") = false) →
        natural_language_query σ tables question = (Except.ok fallbackMsg, [])) := by
  intro σ tables question
  refine ⟨?_, ?_, ?_, ?_⟩
  · rintro ⟨h1, h2, h3, h4⟩
    simp [natural_language_query, h1, h2, h3, h4]
  · rintro ⟨h1, h2⟩
    simp only [natural_language_query, h1, if_true]
    exact howManyLoop_fallback σ (pyLower question) tables h2
  · rintro ⟨h1, h2, h3⟩
    simp [natural_language_query, h1, h2, h3]
  · rintro ⟨h1, h2, h3, h4⟩
    simp [natural_language_query, h1, h2, h3, h4]

/-- C5 witness: four concrete questions, one per fallback route, against
an unreachable server. -/
theorem nlq_fallback_witness :
    ((strContainsB (pyLower "Hello there") "how many" = false ∧
      (strContainsB (pyLower "Hello there") "top" && strContainsB (pyLower "Hello there") "by") = false ∧
      (strContainsB (pyLower "Hello there") "average" || strContainsB (pyLower "Hello there") "avg") = false ∧
      (strContainsB (pyLower "Hello there") "trend" || strContainsB (pyLower "Hello there") "over time") = false) ∧
     natural_language_query (fun _ _ => Except.error "down") ["sales"] "Hello there" =
       (Except.ok fallbackMsg, [])) ∧
    ((strContainsB (pyLower "How many widgets?") "how many" = true ∧
      (["sales"] : List String).all (fun t => !(strContainsB (pyLower "How many widgets?") (pyLower t))) = true) ∧
     natural_language_query (fun _ _ => Except.error "down") ["sales"] "How many widgets?" =
       (Except.ok fallbackMsg, [])) ∧
    ((strContainsB (pyLower "Top products by volume") "how many" = false ∧
      (strContainsB (pyLower "Top products by volume") "top" && strContainsB (pyLower "Top products by volume") "by") = true ∧
      (strContainsB (pyLower "Top products by volume") "customers" && strContainsB (pyLower "Top products by volume") "revenue") = false) ∧
     natural_language_query (fun _ _ => Except.error "down") ["sales"] "Top products by volume" =
       (Except.ok fallbackMsg, [])) ∧
    ((strContainsB (pyLower "Average temperature?") "how many" = false ∧
      (strContainsB (pyLower "Average temperature?") "top" && strContainsB (pyLower "Average temperature?") "by") = false ∧
      (strContainsB (pyLower "Average temperature?") "average" || strContainsB (pyLower "Average temperature?") "avg") = true ∧
      (strContainsB (pyLower "Average temperature?") "order" || strContainsB (pyLower "Average temperature?") "sale") = false) ∧
     natural_language_query (fun _ _ => Except.error "down") ["sales"] "Average temperature?" =
       (Except.ok fallbackMsg, [])) := by
  refine ⟨⟨⟨rfl, rfl, rfl, rfl⟩, ?_⟩, ⟨⟨rfl, rfl⟩, ?_⟩, ⟨⟨rfl, rfl, rfl⟩, ?_⟩, ⟨⟨rfl, rfl, rfl, rfl⟩, ?_⟩⟩
  · exact (nlq_fallback (fun _ _ => Except.error "down") ["sales"] "Hello there").1
      ⟨rfl, rfl, rfl, rfl⟩
  · exact (nlq_fallback (fun _ _ => Except.error "down") ["sales"] "How many widgets?").2.1
      ⟨rfl, rfl⟩
  · exact (nlq_fallback (fun _ _ => Except.error "down") ["sales"] "Top products by volume").2.2.1
      ⟨rfl, rfl, rfl⟩
  · exact (nlq_fallback (fun _ _ => Except.error "down") ["sales"] "Average temperature?").2.2.2
      ⟨rfl, rfl, rfl, rfl⟩

theorem strListLoop_map (ts : List String) :
    strListLoop (ts.map Json.str) = Except.ok ts := by
  induction ts with
  | nil => rfl
  | cons t ts ih => simp [strListLoop, asStr, ih, Except.bind]

/-- `get_tables` against a server whose `list_tables` result carries the
string list `ts`. -/
theorem get_tablesTR_ok (σ : Oracle) (ts : List String)
    (h : σ "list_tables" (Json.obj []) = Except.ok (Json.obj [("tables", Json.arr (ts.map Json.str))])) :
    get_tablesTR σ = (Except.ok ts, [("list_tables", Json.obj [])]) := by
  unfold get_tablesTR
  simp [callToolTR, h, pyIndex, asStrList, strListLoop_map ts]

/-- The schema loop records one `inspect_schema` call per visited table,
succeeds no matter what the oracle answers, and regardless collects
schemas only for visited tables. -/
theorem buildSchemas_spec (σ : Oracle) (l : List String) :
    ∃ schemas : List (String × Json),
      buildSchemas σ l = (Except.ok schemas,
        l.map (fun t => ("inspect_schema", Json.obj [("table", Json.str t)]))) ∧
      schemas.map Prod.fst ⊆ l := by
  induction l with
  | nil => exact ⟨[], rfl, by simp⟩
  | cons t ts ih =>
    obtain ⟨schemas, hs, hsub⟩ := ih
    cases hσ : σ "inspect_schema" (Json.obj [("table", Json.str t)]) with
    | ok s =>
      refine ⟨(t, s) :: schemas, ?_, ?_⟩
      · simp [buildSchemas, callToolTR, hσ, hs]
      · rw [List.map_cons]
        exact List.cons_subset_cons t hsub
    | error e =>
      refine ⟨schemas, ?_, ?_⟩
      · simp [buildSchemas, callToolTR, hσ, hs]
      · exact hsub.trans (List.subset_cons_self t ts)

/-- C10: `_build_context` stores the full table list it got from the
server, issues `inspect_schema` calls exactly for the first 5 tables of
that list, and the keys of the collected schemas are a subset of those
first 5 tables. -/
theorem build_context_spec :
    ∀ (σ : Oracle) (ts : List String),
      σ "list_tables" (Json.obj []) = Except.ok (Json.obj [("tables", Json.arr (ts.map Json.str))]) →
      ∃ ctx : DbContext,
        build_context σ = (Except.ok ctx,
          ("list_tables", Json.obj []) ::
            (ts.take 5).map (fun t => ("inspect_schema", Json.obj [("table", Json.str t)]))) ∧
        ctx.tables = ts ∧
        ctx.schemas.map Prod.fst ⊆ ts.take 5 := by
  intro σ ts h
  obtain ⟨schemas, hs, hsub⟩ := buildSchemas_spec σ (ts.take 5)
  refine ⟨⟨ts, schemas⟩, ?_, rfl, hsub⟩
  unfold build_context
  simp [get_tablesTR_ok σ ts h, hs]

/-- A server with one table whose `inspect_schema` always raises. -/
def oracleInspectFails : Oracle := fun name _ =>
  if name = "list_tables" then Except.ok (Json.obj [("tables", Json.arr [Json.str "t1"])])
  else Except.error "boom"

/-- C10 witness: a concrete server with table `t1` whose `inspect_schema`
raises — the context still lists `t1`, the `inspect_schema` call for `t1`
was issued, and the schema keys (here none: fewer than the visited
tables) are a subset of the first 5 tables. -/
theorem build_context_spec_witness :
    oracleInspectFails "list_tables" (Json.obj []) =
      Except.ok (Json.obj [("tables", Json.arr (["t1"].map Json.str))]) ∧
    (∃ ctx : DbContext,
      build_context oracleInspectFails = (Except.ok ctx,
        ("list_tables", Json.obj []) ::
          ((["t1"] : List String).take 5).map (fun t => ("inspect_schema", Json.obj [("table", Json.str t)]))) ∧
      ctx.tables = ["t1"] ∧
      ctx.schemas.map Prod.fst ⊆ (["t1"] : List String).take 5) ∧
    build_context oracleInspectFails =
      (Except.ok ⟨["t1"], []⟩,
       [("list_tables", Json.obj []), ("inspect_schema", Json.obj [("table", Json.str "t1")])]) := by
  exact ⟨rfl, build_context_spec oracleInspectFails ["t1"] rfl, rfl⟩

/-- C2 counterexample: with a server whose `inspect_schema` raises, the
demo's `_build_context` makes the `inspect_schema` tool call, the call
raises `boom` — and `_build_context` nevertheless returns normally with
an empty schema dict: the failure is swallowed by the `try/except: pass`
of lines 116-120 and does not reach the top-level handler. -/
theorem tool_failure_swallowed :
    oracleInspectFails "inspect_schema" (Json.obj [("table", Json.str "t1")]) = Except.error "boom" ∧
    (build_context oracleInspectFails).2 =
      [("list_tables", Json.obj []), ("inspect_schema", Json.obj [("table", Json.str "t1")])] ∧
    (build_context oracleInspectFails).1 = Except.ok ⟨["t1"], []⟩ :=
  ⟨rfl, rfl, rfl⟩

/-! ## C2: failures are fatal except the guarded `inspect_schema` loop

`NoSwallow σ x` says the computation `x` never swallows a failing tool
call other than `inspect_schema`: whenever `x` completes normally, every
non-`inspect_schema` call it made got a normal result from the server —
equivalently, a single failing call anywhere outside the guarded schema
loop makes the whole computation raise. -/

def NoSwallow (σ : Oracle) {α : Type} (x : TR α) : Prop :=
  ∀ (a : α) (t : List ToolCall), x = (Except.ok a, t) →
    ∀ c ∈ t, c.1 ≠ "inspect_schema" → ∃ v, σ c.1 c.2 = Except.ok v

theorem noSwallow_of_trace_nil {α : Type} (σ : Oracle) (x : TR α) (hx : x.2 = []) :
    NoSwallow σ x := by
  intro a t h c hc hne
  have ht : x.2 = t := congrArg Prod.snd h
  rw [hx] at ht
  rw [← ht] at hc
  exact absurd hc (List.not_mem_nil c)

theorem noSwallow_pure {α : Type} (σ : Oracle) (a : α) :
    NoSwallow σ (Pure.pure a : TR α) :=
  noSwallow_of_trace_nil σ _ rfl

theorem noSwallow_liftE {α : Type} (σ : Oracle) (x : Except String α) :
    NoSwallow σ (TR.liftE x) :=
  noSwallow_of_trace_nil σ _ rfl

theorem noSwallow_callTool (σ : Oracle) (name : String) (args : Json) :
    NoSwallow σ (callToolTR σ name args) := by
  intro a t h c hc hne
  have h1 : σ name args = Except.ok a := congrArg Prod.fst h
  have h2 : ([(name, args)] : List ToolCall) = t := congrArg Prod.snd h
  rw [← h2] at hc
  have hc' := List.mem_singleton.mp hc
  rw [hc']
  exact ⟨a, h1⟩

theorem noSwallow_bind {σ : Oracle} {α β : Type} {x : TR α} {f : α → TR β}
    (hx : NoSwallow σ x) (hf : ∀ b, NoSwallow σ (f b)) : NoSwallow σ (x >>= f) := by
  intro a t h c hc hne
  obtain ⟨r, tx⟩ := x
  cases r with
  | error e => exact absurd (congrArg Prod.fst h) (by simp)
  | ok b =>
    have h1 : (f b).1 = Except.ok a := congrArg Prod.fst h
    have h2 : tx ++ (f b).2 = t := congrArg Prod.snd h
    rw [← h2] at hc
    rcases List.mem_append.mp hc with hcx | hcf
    · exact hx b tx rfl c hcx hne
    · exact hf b a (f b).2 (by rw [← h1]; rfl) c hcf hne

theorem noSwallow_attempt_inspect {σ : Oracle} {α : Type} {x : TR α} {hdl : String → TR α}
    (hnames : ∀ c ∈ x.2, c.1 = "inspect_schema")
    (hx : NoSwallow σ x) (hh : ∀ e, NoSwallow σ (hdl e)) :
    NoSwallow σ (TR.attempt x hdl) := by
  intro a t heq c hc hne
  obtain ⟨r, tx⟩ := x
  cases r with
  | ok b => exact hx a t heq c hc hne
  | error e =>
    have h1 : (hdl e).1 = Except.ok a := congrArg Prod.fst heq
    have h2 : tx ++ (hdl e).2 = t := congrArg Prod.snd heq
    rw [← h2] at hc
    rcases List.mem_append.mp hc with hcx | hch
    · exact absurd (hnames c hcx) hne
    · exact hh e a (hdl e).2 (by rw [← h1]; rfl) c hch hne

theorem noSwallow_queryTR (σ : Oracle) (sql : String) (p : Option Json) :
    NoSwallow σ (queryTR σ sql p) :=
  noSwallow_callTool σ "query" _

theorem noSwallow_get_tablesTR (σ : Oracle) : NoSwallow σ (get_tablesTR σ) := by
  unfold get_tablesTR
  apply noSwallow_bind
  · exact noSwallow_callTool σ "list_tables" _
  intro result
  apply noSwallow_bind
  · exact noSwallow_liftE σ _
  intro tablesJ
  exact noSwallow_liftE σ _

theorem noSwallow_analyze_tableTR (σ : Oracle) (table : String) (columns : Option Json) :
    NoSwallow σ (analyze_tableTR σ table columns) :=
  noSwallow_callTool σ "analyze_table" _

theorem noSwallow_buildSchemas (σ : Oracle) (l : List String) :
    NoSwallow σ (buildSchemas σ l) := by
  induction l with
  | nil => exact noSwallow_of_trace_nil σ _ rfl
  | cons t0 ts ih =>
    unfold buildSchemas
    apply noSwallow_bind
    · apply noSwallow_attempt_inspect
      · intro c hc
        cases hσ : σ "inspect_schema" (Json.obj [("table", Json.str t0)]) with
        | ok s =>
          simp [callToolTR, hσ] at hc
          rw [hc]
        | error e =>
          simp [callToolTR, hσ] at hc
          rw [hc]
      · apply noSwallow_bind
        · exact noSwallow_callTool σ "inspect_schema" _
        intro s
        exact noSwallow_pure σ _
      · intro e
        exact noSwallow_pure σ _
    intro first
    apply noSwallow_bind
    · exact ih
    intro rest
    exact noSwallow_pure σ _

theorem noSwallow_build_context (σ : Oracle) : NoSwallow σ (build_context σ) := by
  unfold build_context
  apply noSwallow_bind
  · exact noSwallow_get_tablesTR σ
  intro tables
  apply noSwallow_bind
  · exact noSwallow_buildSchemas σ _
  intro schemas
  exact noSwallow_pure σ _

theorem noSwallow_howManyLoop (σ : Oracle) (ql : String) (tables : List String) :
    NoSwallow σ (howManyLoop σ ql tables) := by
  induction tables with
  | nil => exact noSwallow_of_trace_nil σ _ rfl
  | cons t0 ts ih =>
    unfold howManyLoop
    split
    · apply noSwallow_bind
      · exact noSwallow_queryTR σ _ none
      intro result
      apply noSwallow_bind
      · exact noSwallow_liftE σ _
      intro countJ
      exact noSwallow_pure σ _
    · exact ih

theorem noSwallow_nlq (σ : Oracle) (tables : List String) (question : String) :
    NoSwallow σ (natural_language_query σ tables question) := by
  unfold natural_language_query
  dsimp only []
  split
  · exact noSwallow_howManyLoop σ _ tables
  split
  · split
    · apply noSwallow_bind
      · exact noSwallow_queryTR σ _ none
      intro result
      apply noSwallow_bind
      · exact noSwallow_liftE σ _
      intro rows
      apply noSwallow_bind
      · exact noSwallow_liftE σ _
      intro lines
      exact noSwallow_pure σ _
    · exact noSwallow_pure σ _
  split
  · split
    · apply noSwallow_bind
      · exact noSwallow_queryTR σ _ none
      intro result
      apply noSwallow_bind
      · exact noSwallow_liftE σ _
      intro avgJ
      apply noSwallow_bind
      · exact noSwallow_liftE σ _
      intro avgS
      exact noSwallow_pure σ _
    · exact noSwallow_pure σ _
  split
  · apply noSwallow_bind
    · exact noSwallow_queryTR σ _ none
    intro result
    apply noSwallow_bind
    · exact noSwallow_liftE σ _
    intro rows
    apply noSwallow_bind
    · exact noSwallow_liftE σ _
    intro lines
    exact noSwallow_pure σ _
  · exact noSwallow_pure σ _

theorem noSwallow_askLoop (σ : Oracle) (ctx : DbContext) (qs : List String) :
    NoSwallow σ (askLoop σ ctx qs) := by
  induction qs with
  | nil => exact noSwallow_of_trace_nil σ _ rfl
  | cons q rest ih =>
    unfold askLoop
    apply noSwallow_bind
    · exact noSwallow_nlq σ ctx.tables q
    intro a
    exact ih

theorem noSwallow_analyze_performance (σ : Oracle) : NoSwallow σ (analyze_performance σ) := by
  unfold analyze_performance
  apply noSwallow_bind
  · exact noSwallow_callTool σ "batch_query" _
  intro batch
  apply noSwallow_bind
  · exact noSwallow_liftE σ _
  intro results
  apply noSwallow_bind
  · exact noSwallow_liftE σ _
  intro insights
  exact noSwallow_pure σ _

theorem noSwallow_suggest (σ : Oracle) (table : String) :
    NoSwallow σ (suggest_optimizationsTR σ table) := by
  unfold suggest_optimizationsTR
  apply noSwallow_bind
  · exact noSwallow_analyze_tableTR σ table none
  intro analysis
  exact noSwallow_liftE σ _

theorem noSwallow_demo (σ : Oracle) : NoSwallow σ (demo_conversation σ) := by
  unfold demo_conversation
  apply noSwallow_bind
  · exact noSwallow_build_context σ
  intro ctx
  apply noSwallow_bind
  · exact noSwallow_askLoop σ ctx demoQuestions
  intro u
  apply noSwallow_bind
  · exact noSwallow_analyze_performance σ
  intro a
  apply noSwallow_bind
  · exact noSwallow_suggest σ "sales"
  intro b
  exact noSwallow_pure σ _

theorem noSwallow_advanced (σ : Oracle) : NoSwallow σ (advanced_ai_integration σ) := by
  unfold advanced_ai_integration
  apply noSwallow_bind
  · exact noSwallow_callTool σ "batch_query" _
  intro report_data
  apply noSwallow_bind
  · exact noSwallow_liftE σ _
  intro results
  apply noSwallow_bind
  · exact noSwallow_liftE σ _
  intro r
  apply noSwallow_bind
  · exact noSwallow_callTool σ "stream_query" _
  intro stream_result
  apply noSwallow_bind
  · exact noSwallow_liftE σ _
  intro s
  exact noSwallow_pure σ _

/-- The body of the `try:` block of `__main__` (lines 399-403) never
swallows a failing non-`inspect_schema` tool call. -/
theorem noSwallow_main_body (σ : Oracle) :
    NoSwallow σ (demo_conversation σ >>= fun _ => advanced_ai_integration σ) :=
  noSwallow_bind (noSwallow_demo σ) (fun _ => noSwallow_advanced σ)

theorem TR.attempt_err {α : Type} {x : TR α} {hdl : String → TR α} {e : String}
    {t : List ToolCall} (hx : x = (Except.error e, t)) :
    TR.attempt x hdl = ((hdl e).1, t ++ (hdl e).2) := by
  rw [hx]
  rfl

/-- A server on which the whole demo run succeeds: empty table list, one
minimally-shaped row for every `query`, empty batch results, an empty
statistics dict, and an empty stream. -/
def oracleDemoHappy : Oracle := fun name _ =>
  if name = "list_tables" then Except.ok (Json.obj [("tables", Json.arr [])])
  else if name = "query" then Except.ok (Json.obj [("results", Json.arr [Json.obj
    [("count", Json.num 1), ("avg_amount", Json.num 1), ("name", Json.str "a"),
     ("total_revenue", Json.num 1), ("date", Json.str "d"), ("orders", Json.num 1),
     ("revenue", Json.num 1)]])])
  else if name = "analyze_table" then
    Except.ok (Json.obj [("statistics", Json.obj []), ("total_rows", Json.num 0)])
  else if name = "batch_query" then Except.ok (Json.obj [("results", Json.arr [])])
  else if name = "stream_query" then
    Except.ok (Json.obj [("total_rows", Json.num 1), ("batch_size", Json.num 100),
      ("batch_count", Json.num 1), ("batches", Json.arr [])])
  else Except.error "unknown tool"

/-- The tool calls of the whole demo run against `oracleDemoHappy`. -/
def happyTrace : List ToolCall :=
  [("list_tables", Json.obj []),
   ("query", Json.obj [("sql", Json.str sqlAvgOrder), ("parameters", Json.arr [])]),
   ("query", Json.obj [("sql", Json.str sqlTrend), ("parameters", Json.arr [])]),
   ("query", Json.obj [("sql", Json.str sqlTopCustomers), ("parameters", Json.arr [])]),
   ("batch_query", perfBatchArgs),
   ("analyze_table", Json.obj [("table", Json.str "sales")]),
   ("batch_query", advancedBatchArgs),
   ("stream_query", streamArgs)]

/-- C2 amended: every failure of a remote tool invocation is fatal to
the demo run — it propagates to the top-level handler of `__main__` —
with the single exception of the `inspect_schema` calls inside
`_build_context`, which are wrapped in `try: ... except: pass` and
skipped. Per-site conjuncts show direct propagation (a `list_tables`
failure aborts `_build_context`; a `batch_query` failure aborts
`analyze_performance` and `advanced_ai_integration`; an `analyze_table`
failure aborts `suggest_optimizations`; a trend-branch `query` failure
aborts `natural_language_query`; the schema loop itself never fails);
the penultimate conjunct is the general statement over every call site
of the whole `try:` body — `stream_query` and all four `query` branches
included — saying no normal completion ever hides a failed
non-`inspect_schema` call; the last conjunct shows a failure of that
body reaches the top-level `except`, which ends the run with no further
calls. -/
theorem failures_fatal_except_inspect :
    (∀ (σ : Oracle) (e : String),
      σ "list_tables" (Json.obj []) = Except.error e →
      build_context σ = (Except.error e, [("list_tables", Json.obj [])])) ∧
    (∀ (σ : Oracle) (l : List String), ∃ schemas, (buildSchemas σ l).1 = Except.ok schemas) ∧
    (∀ (σ : Oracle) (e : String),
      σ "batch_query" perfBatchArgs = Except.error e →
      analyze_performance σ = (Except.error e, [("batch_query", perfBatchArgs)])) ∧
    (∀ (σ : Oracle) (table : String) (e : String),
      σ "analyze_table" (Json.obj [("table", Json.str table)]) = Except.error e →
      suggest_optimizationsTR σ table =
        (Except.error e, [("analyze_table", Json.obj [("table", Json.str table)])])) ∧
    (∀ (σ : Oracle) (e : String),
      σ "batch_query" advancedBatchArgs = Except.error e →
      advanced_ai_integration σ = (Except.error e, [("batch_query", advancedBatchArgs)])) ∧
    (∀ (σ : Oracle) (tables : List String) (question : String) (e : String),
      strContainsB (pyLower question) "how many" = false →
      (strContainsB (pyLower question) "top" && strContainsB (pyLower question) "by") = false →
      (strContainsB (pyLower question) "average" || strContainsB (pyLower question) "avg") = false →
      (strContainsB (pyLower question) "trend" || strContainsB (pyLower question) "over time") = true →
      σ "query" (Json.obj [("sql", Json.str sqlTrend), ("parameters", Json.arr [])]) = Except.error e →
      natural_language_query σ tables question =
        (Except.error e, [("query", Json.obj [("sql", Json.str sqlTrend), ("parameters", Json.arr [])])])) ∧
    (∀ (σ : Oracle) (a : Unit) (t : List ToolCall),
      (demo_conversation σ >>= fun _ => advanced_ai_integration σ) = (Except.ok a, t) →
      ∀ c ∈ t, c.1 ≠ "inspect_schema" → ∃ v, σ c.1 c.2 = Except.ok v) ∧
    (∀ (σ : Oracle) (e : String) (t : List ToolCall),
      (demo_conversation σ >>= fun _ => advanced_ai_integration σ) = (Except.error e, t) →
      main_run σ = (Except.ok (), t)) := by
  refine ⟨?_, ?_, ?_, ?_, ?_, ?_, ?_, ?_⟩
  · intro σ e h
    unfold build_context get_tablesTR
    simp [callToolTR, h]
  · intro σ l
    obtain ⟨schemas, hs, _⟩ := buildSchemas_spec σ l
    exact ⟨schemas, by rw [hs]⟩
  · intro σ e h
    unfold analyze_performance
    simp [callToolTR, h]
  · intro σ table e h
    unfold suggest_optimizationsTR analyze_tableTR
    simp [callToolTR, h]
  · intro σ e h
    unfold advanced_ai_integration
    simp [callToolTR, h]
  · intro σ tables question e h1 h2 h3 h4 h
    unfold natural_language_query queryTR
    simp [h1, h2, h3, h4, callToolTR, parametersOrEmpty, h]
  · intro σ a t h
    exact noSwallow_main_body σ a t h
  · intro σ e t h
    have hm : main_run σ =
        TR.attempt (demo_conversation σ >>= fun _ => advanced_ai_integration σ)
          (fun _ => Pure.pure ()) := rfl
    rw [hm, TR.attempt_err h]
    simp

/-- C2 amended witness: against a server that raises `down` on
everything, every listed call site propagates the failure, the failed
try-body reaches the top-level handler which ends the run with no
further calls, and the schema loop is the exception; against a server on
which everything succeeds, the whole run completes with the eight-call
trace, the `stream_query` call is in it, and the general conjunct yields
that its server result was normal. -/
theorem failures_fatal_except_inspect_witness :
    ((fun _ _ => Except.error "down" : Oracle) "list_tables" (Json.obj []) = Except.error "down" ∧
     build_context (fun _ _ => Except.error "down") =
       (Except.error "down", [("list_tables", Json.obj [])])) ∧
    (∃ schemas, (buildSchemas (fun _ _ => Except.error "down") ["t1"]).1 = Except.ok schemas) ∧
    ((fun _ _ => Except.error "down" : Oracle) "batch_query" perfBatchArgs = Except.error "down" ∧
     analyze_performance (fun _ _ => Except.error "down") =
       (Except.error "down", [("batch_query", perfBatchArgs)])) ∧
    ((fun _ _ => Except.error "down" : Oracle) "analyze_table" (Json.obj [("table", Json.str "sales")]) = Except.error "down" ∧
     suggest_optimizationsTR (fun _ _ => Except.error "down") "sales" =
       (Except.error "down", [("analyze_table", Json.obj [("table", Json.str "sales")])])) ∧
    ((fun _ _ => Except.error "down" : Oracle) "batch_query" advancedBatchArgs = Except.error "down" ∧
     advanced_ai_integration (fun _ _ => Except.error "down") =
       (Except.error "down", [("batch_query", advancedBatchArgs)])) ∧
    ((strContainsB (pyLower "Show me the trend") "trend" || strContainsB (pyLower "Show me the trend") "over time") = true ∧
     natural_language_query (fun _ _ => Except.error "down") ["sales"] "Show me the trend" =
       (Except.error "down", [("query", Json.obj [("sql", Json.str sqlTrend), ("parameters", Json.arr [])])])) ∧
    ((demo_conversation oracleDemoHappy >>= fun _ => advanced_ai_integration oracleDemoHappy) =
       (Except.ok (), happyTrace) ∧
     ("stream_query", streamArgs) ∈ happyTrace ∧
     ("stream_query", streamArgs).1 ≠ "inspect_schema" ∧
     (∃ v, oracleDemoHappy "stream_query" streamArgs = Except.ok v)) ∧
    ((demo_conversation (fun _ _ => Except.error "down") >>= fun _ =>
        advanced_ai_integration (fun _ _ => Except.error "down")) =
       (Except.error "down", [("list_tables", Json.obj [])]) ∧
     main_run (fun _ _ => Except.error "down") = (Except.ok (), [("list_tables", Json.obj [])])) := by
  have hbody : (demo_conversation oracleDemoHappy >>= fun _ =>
      advanced_ai_integration oracleDemoHappy) = (Except.ok (), happyTrace) := rfl
  have hmem : ("stream_query", streamArgs) ∈ happyTrace := by
    unfold happyTrace
    exact List.mem_cons_of_mem _ (List.mem_cons_of_mem _ (List.mem_cons_of_mem _
      (List.mem_cons_of_mem _ (List.mem_cons_of_mem _ (List.mem_cons_of_mem _
        (List.mem_cons_of_mem _ (List.mem_singleton_self _)))))))
  have hne : ("stream_query", streamArgs).1 ≠ "inspect_schema" := by decide
  have hdown : (demo_conversation (fun _ _ => Except.error "down") >>= fun _ =>
      advanced_ai_integration (fun _ _ => Except.error "down")) =
      (Except.error "down", [("list_tables", Json.obj [])]) := rfl
  refine ⟨⟨rfl, ?_⟩, ?_, ⟨rfl, ?_⟩, ⟨rfl, ?_⟩, ⟨rfl, ?_⟩, ⟨rfl, ?_⟩, ⟨hbody, hmem, hne, ?_⟩, ⟨hdown, ?_⟩⟩
  · exact failures_fatal_except_inspect.1 (fun _ _ => Except.error "down") "down" rfl
  · exact failures_fatal_except_inspect.2.1 (fun _ _ => Except.error "down") ["t1"]
  · exact failures_fatal_except_inspect.2.2.1 (fun _ _ => Except.error "down") "down" rfl
  · exact failures_fatal_except_inspect.2.2.2.1 (fun _ _ => Except.error "down") "sales" "down" rfl
  · exact failures_fatal_except_inspect.2.2.2.2.1 (fun _ _ => Except.error "down") "down" rfl
  · exact failures_fatal_except_inspect.2.2.2.2.2.1 (fun _ _ => Except.error "down") ["sales"]
      "Show me the trend" "down" rfl rfl rfl rfl rfl
  · exact failures_fatal_except_inspect.2.2.2.2.2.2.1 oracleDemoHappy () happyTrace hbody
      ("stream_query", streamArgs) hmem hne
  · exact failures_fatal_except_inspect.2.2.2.2.2.2.2 (fun _ _ => Except.error "down") "down"
      [("list_tables", Json.obj [])] hdown

/-! ## C6: every tool ever invoked is one of the server's six tools -/

/-- The six tools exposed by the MCP server (spec section 6). -/
def allowedTools : List String :=
  ["query", "list_tables", "analyze_table", "inspect_schema", "batch_query", "stream_query"]

/-- Every `call_tool` invocation recorded by a computation names one of
the six server tools. -/
def callsOK {α : Type} (x : TR α) : Prop :=
  ∀ c ∈ x.2, c.1 ∈ allowedTools

theorem callsOK_pure {α : Type} (a : α) : callsOK (Pure.pure a : TR α) := by
  intro c hc
  exact absurd hc (List.not_mem_nil c)

theorem callsOK_liftE {α : Type} (x : Except String α) : callsOK (TR.liftE x) := by
  intro c hc
  obtain ⟨r⟩ := x <;> exact absurd hc (List.not_mem_nil c)

theorem callsOK_bind {α β : Type} {x : TR α} {f : α → TR β}
    (hx : callsOK x) (hf : ∀ a, callsOK (f a)) : callsOK (x >>= f) := by
  obtain ⟨r, t⟩ := x
  cases r with
  | error e => exact hx
  | ok a =>
    intro c hc
    rcases List.mem_append.mp hc with h | h
    · exact hx c h
    · exact hf a c h

theorem callsOK_attempt {α : Type} {x : TR α} {h : String → TR α}
    (hx : callsOK x) (hh : ∀ e, callsOK (h e)) : callsOK (TR.attempt x h) := by
  obtain ⟨r, t⟩ := x
  cases r with
  | ok a => exact hx
  | error e =>
    intro c hc
    rcases List.mem_append.mp hc with h1 | h1
    · exact hx c h1
    · exact hh e c h1

theorem callsOK_callTool {σ : Oracle} {name : String} {args : Json}
    (h : name ∈ allowedTools) : callsOK (callToolTR σ name args) := by
  intro c hc
  have := List.mem_singleton.mp hc
  rw [this]
  exact h

theorem callsOK_queryTR (σ : Oracle) (sql : String) (p : Option Json) :
    callsOK (queryTR σ sql p) :=
  callsOK_callTool (by decide)

theorem callsOK_get_tablesTR (σ : Oracle) : callsOK (get_tablesTR σ) := by
  unfold get_tablesTR
  apply callsOK_bind
  · exact callsOK_callTool (by decide)
  intro result
  apply callsOK_bind
  · exact callsOK_liftE _
  intro tablesJ
  exact callsOK_liftE _

theorem callsOK_analyze_tableTR (σ : Oracle) (table : String) (columns : Option Json) :
    callsOK (analyze_tableTR σ table columns) :=
  callsOK_callTool (by decide)

theorem callsOK_buildSchemas (σ : Oracle) (l : List String) :
    callsOK (buildSchemas σ l) := by
  induction l with
  | nil => exact callsOK_pure []
  | cons t ts ih =>
    unfold buildSchemas
    apply callsOK_bind
    · apply callsOK_attempt
      · apply callsOK_bind
        · exact callsOK_callTool (by decide)
        intro s
        exact callsOK_pure _
      · intro e
        exact callsOK_pure _
    intro first
    apply callsOK_bind
    · exact ih
    intro rest
    exact callsOK_pure _

theorem callsOK_build_context (σ : Oracle) : callsOK (build_context σ) := by
  unfold build_context
  apply callsOK_bind
  · exact callsOK_get_tablesTR σ
  intro tables
  apply callsOK_bind
  · exact callsOK_buildSchemas σ _
  intro schemas
  exact callsOK_pure _

theorem callsOK_howManyLoop (σ : Oracle) (ql : String) (tables : List String) :
    callsOK (howManyLoop σ ql tables) := by
  induction tables with
  | nil => exact callsOK_pure _
  | cons t ts ih =>
    unfold howManyLoop
    split
    · apply callsOK_bind
      · exact callsOK_queryTR σ _ none
      intro result
      apply callsOK_bind
      · exact callsOK_liftE _
      intro countJ
      exact callsOK_pure _
    · exact ih

theorem callsOK_nlq (σ : Oracle) (tables : List String) (question : String) :
    callsOK (natural_language_query σ tables question) := by
  unfold natural_language_query
  dsimp only []
  split
  · exact callsOK_howManyLoop σ _ tables
  split
  · split
    · apply callsOK_bind
      · exact callsOK_queryTR σ _ none
      intro result
      apply callsOK_bind
      · exact callsOK_liftE _
      intro rows
      apply callsOK_bind
      · exact callsOK_liftE _
      intro lines
      exact callsOK_pure _
    · exact callsOK_pure _
  split
  · split
    · apply callsOK_bind
      · exact callsOK_queryTR σ _ none
      intro result
      apply callsOK_bind
      · exact callsOK_liftE _
      intro avgJ
      apply callsOK_bind
      · exact callsOK_liftE _
      intro avgS
      exact callsOK_pure _
    · exact callsOK_pure _
  split
  · apply callsOK_bind
    · exact callsOK_queryTR σ _ none
    intro result
    apply callsOK_bind
    · exact callsOK_liftE _
    intro rows
    apply callsOK_bind
    · exact callsOK_liftE _
    intro lines
    exact callsOK_pure _
  · exact callsOK_pure _

theorem callsOK_askLoop (σ : Oracle) (ctx : DbContext) (qs : List String) :
    callsOK (askLoop σ ctx qs) := by
  induction qs with
  | nil => exact callsOK_pure _
  | cons q rest ih =>
    unfold askLoop
    apply callsOK_bind
    · exact callsOK_nlq σ ctx.tables q
    intro a
    exact ih

theorem callsOK_analyze_performance (σ : Oracle) : callsOK (analyze_performance σ) := by
  unfold analyze_performance
  apply callsOK_bind
  · exact callsOK_callTool (by decide)
  intro batch
  apply callsOK_bind
  · exact callsOK_liftE _
  intro results
  apply callsOK_bind
  · exact callsOK_liftE _
  intro insights
  exact callsOK_pure _

theorem callsOK_suggest (σ : Oracle) (table : String) :
    callsOK (suggest_optimizationsTR σ table) := by
  unfold suggest_optimizationsTR
  apply callsOK_bind
  · exact callsOK_analyze_tableTR σ table none
  intro analysis
  exact callsOK_liftE _

theorem callsOK_demo (σ : Oracle) : callsOK (demo_conversation σ) := by
  unfold demo_conversation
  apply callsOK_bind
  · exact callsOK_build_context σ
  intro ctx
  apply callsOK_bind
  · exact callsOK_askLoop σ ctx demoQuestions
  intro u
  apply callsOK_bind
  · exact callsOK_analyze_performance σ
  intro a
  apply callsOK_bind
  · exact callsOK_suggest σ "sales"
  intro b
  exact callsOK_pure _

theorem callsOK_advanced (σ : Oracle) : callsOK (advanced_ai_integration σ) := by
  unfold advanced_ai_integration
  apply callsOK_bind
  · exact callsOK_callTool (by decide)
  intro report_data
  apply callsOK_bind
  · exact callsOK_liftE _
  intro results
  apply callsOK_bind
  · exact callsOK_liftE _
  intro r
  apply callsOK_bind
  · exact callsOK_callTool (by decide)
  intro stream_result
  apply callsOK_bind
  · exact callsOK_liftE _
  intro s
  exact callsOK_pure _

/-- C6: over any server behaviour, every tool name the whole program run
ever passes to `call_tool` is one of the six tools exposed by the MCP
server. -/
theorem program_tools_allowed :
    ∀ (σ : Oracle) (c : ToolCall), c ∈ (main_run σ).2 → c.1 ∈ allowedTools := by
  intro σ
  have h : callsOK (main_run σ) := by
    unfold main_run
    apply callsOK_attempt
    · apply callsOK_bind
      · exact callsOK_demo σ
      intro u
      exact callsOK_advanced σ
    · intro e
      exact callsOK_pure _
  exact h

/-- C6 witness: a dead server — the run makes exactly the `list_tables`
call, which is one of the six tools. -/
theorem program_tools_allowed_witness :
    (("list_tables", Json.obj []) ∈ (main_run (fun _ _ => Except.error "down")).2) ∧
    ("list_tables", Json.obj []).1 ∈ allowedTools := by
  have hm : ("list_tables", Json.obj []) ∈ (main_run (fun _ _ => Except.error "down")).2 := by
    show ("list_tables", Json.obj []) ∈ [("list_tables", Json.obj [])]
    exact List.mem_singleton_self _
  exact ⟨hm, program_tools_allowed (fun _ _ => Except.error "down") ("list_tables", Json.obj []) hm⟩
